import Mathlib

/-!
Verification of `cdl_crop_rotation.py`: a batch script that fetches a
Cropland-Data-Layer raster for an AOI shapefile over a range of years,
masks each raster to the AOI polygon, tallies the dominant crop class,
and writes a (year, crop) csv.

The shallow embedding below follows the source line by line:
* raster cells are (position, class-code) pairs (`Pos × Nat`);
* `mask.mask(ras, shapes, crop=True)` zeroes every cell outside all of
  the shapes (CDL nodata value 0);
* `np.unique(dat[np.where(dat!=0)])` is the ascending sorted list of
  distinct nonzero cell values (`npUnique`);
* the crop tally loop keeps a running `(crop_max, max_cnt)` pair and
  replaces it only on a strictly greater count (`tallyStep`);
* the top-level control flow (directory checks, year loop, network
  fetches, file writes, final csv) is modelled as a function from an
  abstract environment to a list of observable effects.
-/

namespace CdlCropRotation

/-- A raster cell position (row, column). -/
abbrev Pos := Nat × Nat

/-- A bounding box (minx, miny, maxx, maxy), as in
`clip_shp.loc[0].geometry.bounds` after `int` conversion. -/
abbrev BBox := Int × Int × Int × Int

/-- `np.unique l`: the ascending sorted list of the distinct elements of `l`. -/
def npUnique (l : List Nat) : List Nat :=
  List.insertionSort (· ≤ ·) l.dedup

/-- One iteration of the crop tally loop (source lines 156-164): replace the
running `(crop_max, max_cnt)` pair only when `cnt > max_cnt` holds strictly. -/
def tallyStep (dat : List Nat) (st : Nat × Nat) (c : Nat) : Nat × Nat :=
  if dat.count c > st.2 then (c, dat.count c) else st

/-- The crop tally loop over `crops = np.unique(dat[np.where(dat!=0)])`,
starting from `crop_max = 0`, `max_cnt = 0` (source lines 149-164). -/
def cropTally (dat : List Nat) : Nat × Nat :=
  (npUnique (dat.filter (fun v => v != 0))).foldl (tallyStep dat) (0, 0)

/-- The dominant class code the loop leaves in `crop_max`. -/
def dominantCrop (dat : List Nat) : Nat :=
  (cropTally dat).1

/-- One AOI shapefile feature: a polygon membership test together with the
`geometry.bounds` attribute geopandas exposes for it. -/
structure Feature where
  contains : Pos → Bool
  bounds : BBox

/-- Value of one cell after `mask.mask`: cells outside every shape are set
to the nodata sentinel 0, cells inside some shape keep their value. -/
def maskCellVal (shapes : List (Pos → Bool)) (p : Pos) (v : Nat) : Nat :=
  if shapes.any (fun s => s p) then v else 0

/-- `mask.mask(ras, shapes, crop=True)` on a cell list: every cell outside
all of the shapes is forced to 0 (source line 139). -/
def maskMask (shapes : List (Pos → Bool)) (ras : List (Pos × Nat)) :
    List (Pos × Nat) :=
  ras.map (fun pv => (pv.1, maskCellVal shapes pv.1 pv.2))

/-- The flat list of cell values of the masked raster `dat`. -/
def maskedValues (shapes : List (Pos → Bool)) (ras : List (Pos × Nat)) :
    List Nat :=
  (maskMask shapes ras).map Prod.snd

/-- Number of cells of `ras` that lie inside the shapes and carry value `c`. -/
def insideCount (shapes : List (Pos → Bool)) (ras : List (Pos × Nat))
    (c : Nat) : Nat :=
  ((ras.filter (fun pv => shapes.any (fun s => s pv.1))).map Prod.snd).count c

/-- The clip-and-tally step of the script: mask the raster to the AOI
shapes, then run the dominant-crop tally on the masked values. -/
def clipTally (shapes : List (Pos → Bool)) (ras : List (Pos × Nat)) : Nat :=
  dominantCrop (maskedValues shapes ras)

/-! ### Lemmas about the tally loop -/

lemma tallyStep_of_le (dat : List Nat) (st : Nat × Nat) (c : Nat)
    (h : dat.count c ≤ st.2) : tallyStep dat st c = st := by
  unfold tallyStep
  simp [Nat.not_lt.mpr h]

lemma foldl_tally_of_le (dat : List Nat) :
    ∀ (l : List Nat) (st : Nat × Nat),
      (∀ c ∈ l, dat.count c ≤ st.2) →
      l.foldl (tallyStep dat) st = st := by
  intro l
  induction l with
  | nil => intro st _; rfl
  | cons a t ih =>
      intro st h
      rw [List.foldl_cons, tallyStep_of_le dat st a (h a (List.mem_cons_self a t))]
      exact ih st (fun c hc => h c (List.mem_cons_of_mem a hc))

lemma foldl_tally_first (dat : List Nat) :
    ∀ (l₁ : List Nat) (m : Nat) (l₂ : List Nat) (st : Nat × Nat),
      st.2 < dat.count m →
      (∀ c ∈ l₁, dat.count c < dat.count m) →
      (∀ c ∈ l₂, dat.count c ≤ dat.count m) →
      (l₁ ++ m :: l₂).foldl (tallyStep dat) st = (m, dat.count m) := by
  intro l₁
  induction l₁ with
  | nil =>
      intro m l₂ st hst h₁ h₂
      rw [List.nil_append, List.foldl_cons]
      have hstep : tallyStep dat st m = (m, dat.count m) := by
        unfold tallyStep
        simp [hst]
      rw [hstep]
      exact foldl_tally_of_le dat l₂ (m, dat.count m) h₂
  | cons a t ih =>
      intro m l₂ st hst h₁ h₂
      rw [List.cons_append, List.foldl_cons]
      by_cases hc : dat.count a > st.2
      · have hstep : tallyStep dat st a = (a, dat.count a) := by
          unfold tallyStep
          simp [hc]
        rw [hstep]
        exact ih m l₂ (a, dat.count a)
          (h₁ a (List.mem_cons_self a t))
          (fun c hct => h₁ c (List.mem_cons_of_mem a hct)) h₂
      · rw [tallyStep_of_le dat st a (Nat.not_lt.mp hc)]
        exact ih m l₂ st hst
          (fun c hct => h₁ c (List.mem_cons_of_mem a hct)) h₂

lemma mem_npUnique {l : List Nat} {a : Nat} :
    a ∈ npUnique l ↔ a ∈ l := by
  unfold npUnique
  rw [List.mem_insertionSort, List.mem_dedup]

lemma npUnique_nodup (l : List Nat) : (npUnique l).Nodup :=
  (List.perm_insertionSort _ _).nodup_iff.mpr (List.nodup_dedup l)

lemma npUnique_sorted (l : List Nat) :
    List.Sorted (· ≤ ·) (npUnique l) :=
  List.sorted_insertionSort _ _

lemma mem_filter_ne_zero {dat : List Nat} {c : Nat} :
    c ∈ dat.filter (fun v => v != 0) ↔ c ∈ dat ∧ c ≠ 0 := by
  rw [List.mem_filter]
  simp [bne_iff_ne]

/-- Core characterisation of the tally loop: if the enumeration of distinct
nonzero values splits as `l₁ ++ m :: l₂`, every value before `m` has a
strictly smaller count and every value after `m` has a count at most that
of `m`, then the loop selects `m`. -/
lemma dominantCrop_eq_of_split (dat : List Nat) (l₁ l₂ : List Nat) (m : Nat)
    (hdec : npUnique (dat.filter (fun v => v != 0)) = l₁ ++ m :: l₂)
    (h₁ : ∀ c ∈ l₁, dat.count c < dat.count m)
    (h₂ : ∀ c ∈ l₂, dat.count c ≤ dat.count m) :
    dominantCrop dat = m := by
  have hmem : m ∈ npUnique (dat.filter (fun v => v != 0)) := by
    rw [hdec]
    exact List.mem_append_right _ (List.mem_cons_self m l₂)
  have hmdat : m ∈ dat := (mem_filter_ne_zero.mp (mem_npUnique.mp hmem)).1
  have hpos : 0 < dat.count m := List.count_pos_iff.mpr hmdat
  unfold dominantCrop cropTally
  rw [hdec, foldl_tally_first dat l₁ m l₂ (0, 0) hpos h₁ h₂]

/-! ### Lemmas about masking -/

lemma maskedValues_count (shapes : List (Pos → Bool)) (ras : List (Pos × Nat))
    (c : Nat) (hc : c ≠ 0) :
    (maskedValues shapes ras).count c = insideCount shapes ras c := by
  unfold maskedValues maskMask insideCount
  induction ras with
  | nil => rfl
  | cons pv t ih =>
      by_cases h : (shapes.any fun s => s pv.1) = true
      · have hm : maskCellVal shapes pv.1 pv.2 = pv.2 := by
          unfold maskCellVal
          simp [h]
        rw [List.map_cons, List.filter_cons, if_pos h, hm, List.map_cons,
          List.map_cons, List.count_cons, List.count_cons, ih]
      · have hm : maskCellVal shapes pv.1 pv.2 = 0 := by
          unfold maskCellVal
          simp [h]
        have hne : ((0 : Nat) == c) = false := by
          simp [Ne.symm hc]
        rw [List.map_cons, List.filter_cons, if_neg h, hm, List.map_cons,
          List.count_cons, hne, ih]
        simp

lemma maskedValues_mem_of_inside (shapes : List (Pos → Bool))
    (ras : List (Pos × Nat)) (p : Pos) (v : Nat)
    (hin : (p, v) ∈ ras) (hc : shapes.any (fun s => s p) = true) :
    (p, v) ∈ maskMask shapes ras := by
  unfold maskMask
  have : ((p, v).1, maskCellVal shapes (p, v).1 (p, v).2) = (p, v) := by
    unfold maskCellVal
    simp [hc]
  rw [← this]
  exact List.mem_map_of_mem _ hin

/-! ### C1, C2, C7, C10 -/

/-- C1: for every raster grid and AOI polygon with at least one nonzero cell
inside the polygon, the dominant-class selection returns the single class
code whose cell count inside the polygon is the greatest among all distinct
nonzero class codes present in the masked grid. -/
theorem c1_dominant_class_selected (shapes : List (Pos → Bool))
    (ras : List (Pos × Nat)) (m : Nat)
    (hm0 : m ≠ 0)
    (hpos : 0 < insideCount shapes ras m)
    (hmax : ∀ c ∈ maskedValues shapes ras, c ≠ 0 → c ≠ m →
      insideCount shapes ras c < insideCount shapes ras m) :
    clipTally shapes ras = m := by
  set dat := maskedValues shapes ras with hdat
  have hcm : dat.count m = insideCount shapes ras m :=
    maskedValues_count shapes ras m hm0
  have hmdat : m ∈ dat := by
    apply List.count_pos_iff.mp
    rw [hcm]
    exact hpos
  have hmu : m ∈ npUnique (dat.filter (fun v => v != 0)) :=
    mem_npUnique.mpr (mem_filter_ne_zero.mpr ⟨hmdat, hm0⟩)
  obtain ⟨l₁, l₂, hdec⟩ := List.append_of_mem hmu
  have hnd : (l₁ ++ m :: l₂).Nodup := by
    rw [← hdec]; exact npUnique_nodup _
  have hlt : ∀ c, c ∈ l₁ ∨ c ∈ l₂ → dat.count c < dat.count m := by
    intro c hcmem
    have hcu : c ∈ npUnique (dat.filter (fun v => v != 0)) := by
      rw [hdec]
      rcases hcmem with h | h
      · exact List.mem_append_left _ h
      · exact List.mem_append_right _ (List.mem_cons_of_mem m h)
    obtain ⟨hcdat, hc0⟩ := mem_filter_ne_zero.mp (mem_npUnique.mp hcu)
    have hcne : c ≠ m := by
      intro hEq
      subst hEq
      rcases hcmem with h | h
      · have := (List.nodup_append.mp hnd).2.2
        exact this h (List.mem_cons_self c l₂)
      · have := (List.nodup_cons.mp (List.nodup_append.mp hnd).2.1).1
        exact this h
    rw [hcm, maskedValues_count shapes ras c hc0]
    exact hmax c hcdat hc0 hcne
  exact dominantCrop_eq_of_split dat l₁ l₂ m hdec
    (fun c hcl => hlt c (Or.inl hcl))
    (fun c hcl => Nat.le_of_lt (hlt c (Or.inr hcl)))

/-- C1 witness: a 2×2-cell polygon over a 5-valued majority grid. -/
theorem c1_witness :
    (5 : Nat) ≠ 0 ∧
    clipTally [fun p => decide (p.1 ≤ 1)]
      [((0, 0), 5), ((0, 1), 5), ((1, 0), 3), ((5, 5), 3)] = 5 := by
  refine ⟨by decide, ?_⟩
  exact c1_dominant_class_selected [fun p => decide (p.1 ≤ 1)]
    [((0, 0), 5), ((0, 1), 5), ((1, 0), 3), ((5, 5), 3)] 5
    (by decide) (by decide) (by decide)

/-- C2: masking forces every cell outside the polygon to the sentinel 0,
and the count of every nonzero class in the masked grid equals its count
among the cells inside the polygon, so no outside cell contributes. -/
theorem c2_mask_excludes_outside (shapes : List (Pos → Bool))
    (ras : List (Pos × Nat)) :
    (∀ pv ∈ maskMask shapes ras,
        shapes.any (fun s => s pv.1) = false → pv.2 = 0) ∧
    (∀ c : Nat, c ≠ 0 →
        (maskedValues shapes ras).count c = insideCount shapes ras c) := by
  constructor
  · intro pv hpv hout
    unfold maskMask at hpv
    obtain ⟨q, _, hq⟩ := List.mem_map.mp hpv
    subst hq
    simp only at hout
    unfold maskCellVal
    rw [hout]
    simp
  · intro c hc
    exact maskedValues_count shapes ras c hc

/-- C2 witness: a polygon strictly smaller than the raster extent; the
outside cell of value 3 does not reach the tally counts. -/
theorem c2_witness :
    (maskedValues [fun p => decide (p.1 = 0)]
        [((0, 0), 3), ((1, 0), 3), ((1, 1), 3)]).count 3 =
      insideCount [fun p => decide (p.1 = 0)]
        [((0, 0), 3), ((1, 0), 3), ((1, 1), 3)] 3 :=
  (c2_mask_excludes_outside [fun p => decide (p.1 = 0)]
    [((0, 0), 3), ((1, 0), 3), ((1, 1), 3)]).2 3 (by decide)

/-- C7: the running maximum is replaced only on a strictly greater count,
so the selected code is the first value, in the iteration order of the
distinct-value enumeration, whose count is maximal. -/
theorem c7_first_encountered_tie (dat : List Nat) (l₁ l₂ : List Nat) (m : Nat)
    (hdec : npUnique (dat.filter (fun v => v != 0)) = l₁ ++ m :: l₂)
    (h₁ : ∀ c ∈ l₁, dat.count c < dat.count m)
    (h₂ : ∀ c ∈ l₂, dat.count c ≤ dat.count m) :
    dominantCrop dat = m :=
  dominantCrop_eq_of_split dat l₁ l₂ m hdec h₁ h₂

/-- C7 witness: codes 2 and 9 tie with two cells each; 2 is encountered
first in the enumeration and is selected. -/
theorem c7_witness : dominantCrop [2, 9, 2, 9, 1] = 2 :=
  c7_first_encountered_tie [2, 9, 2, 9, 1] [1] [9] 2
    (by decide) (by decide) (by decide)

/-- C10: the distinct nonzero values are enumerated in ascending order and
the running maximum is replaced only on a strictly greater count, so among
tied maximal classes the smallest code is selected. -/
theorem c10_smallest_code_ties (dat : List Nat) (m : Nat)
    (hmdat : m ∈ dat) (hm0 : m ≠ 0)
    (hmax : ∀ c ∈ dat, c ≠ 0 → dat.count c ≤ dat.count m)
    (hmin : ∀ c ∈ dat, c ≠ 0 → dat.count c = dat.count m → m ≤ c) :
    dominantCrop dat = m := by
  have hmu : m ∈ npUnique (dat.filter (fun v => v != 0)) :=
    mem_npUnique.mpr (mem_filter_ne_zero.mpr ⟨hmdat, hm0⟩)
  obtain ⟨l₁, l₂, hdec⟩ := List.append_of_mem hmu
  have hsort : List.Sorted (· ≤ ·) (l₁ ++ m :: l₂) := by
    rw [← hdec]; exact npUnique_sorted _
  have hnd : (l₁ ++ m :: l₂).Nodup := by
    rw [← hdec]; exact npUnique_nodup _
  have hprops : ∀ c, c ∈ l₁ ∨ c ∈ l₂ → c ∈ dat ∧ c ≠ 0 ∧ c ≠ m := by
    intro c hcmem
    have hcu : c ∈ npUnique (dat.filter (fun v => v != 0)) := by
      rw [hdec]
      rcases hcmem with h | h
      · exact List.mem_append_left _ h
      · exact List.mem_append_right _ (List.mem_cons_of_mem m h)
    obtain ⟨hcdat, hc0⟩ := mem_filter_ne_zero.mp (mem_npUnique.mp hcu)
    refine ⟨hcdat, hc0, ?_⟩
    intro hEq
    subst hEq
    rcases hcmem with h | h
    · exact (List.nodup_append.mp hnd).2.2 h (List.mem_cons_self c l₂)
    · exact (List.nodup_cons.mp (List.nodup_append.mp hnd).2.1).1 h
  apply dominantCrop_eq_of_split dat l₁ l₂ m hdec
  · intro c hcl
    obtain ⟨hcdat, hc0, hcne⟩ := hprops c (Or.inl hcl)
    have hle : dat.count c ≤ dat.count m := hmax c hcdat hc0
    rcases Nat.lt_or_ge (dat.count c) (dat.count m) with h | h
    · exact h
    · have hEqCnt : dat.count c = dat.count m := Nat.le_antisymm hle h
      have hcle : c ≤ m :=
        (List.pairwise_append.mp hsort).2.2 c hcl m (List.mem_cons_self m l₂)
      have hmle : m ≤ c := hmin c hcdat hc0 hEqCnt
      exact absurd (Nat.le_antisymm hcle hmle) hcne
  · intro c hcl
    obtain ⟨hcdat, hc0, _⟩ := hprops c (Or.inr hcl)
    exact hmax c hcdat hc0

/-- C10 witness: 4 and 7 tie with two cells each; the smaller code 4 wins. -/
theorem c10_witness : dominantCrop [7, 4, 7, 4, 1] = 4 :=
  c10_smallest_code_ties [7, 4, 7, 4, 1] 4
    (by decide) (by decide) (by decide) (by decide)

/-! ### Year clamping (source lines 56-66) -/

/-- `cdl_yrs[0]`, the earliest supported CDL year. -/
def cdl_beg : Int := 2009

/-- `cdl_yrs[1]`, the latest supported CDL year. -/
def cdl_end : Int := 2024

/-- `if num_yrs > cdl_yrs[1] - cdl_yrs[0]: num_yrs = cdl_yrs[1] - cdl_yrs[0]`. -/
def clampNum (numYrs : Int) : Int :=
  if numYrs > cdl_end - cdl_beg then cdl_end - cdl_beg else numYrs

/-- `if beg_yr < cdl_yrs[0]: beg_yr = cdl_yrs[0]` followed by
`if beg_yr > cdl_yrs[1]: beg_yr = cdl_yrs[1] - num_yrs`. -/
def clampBeg (begYr numYrs : Int) : Int :=
  let b := if begYr < cdl_beg then cdl_beg else begYr
  if b > cdl_end then cdl_end - numYrs else b

/-- The whole clamping block: `num_yrs` is clamped first and the already
clamped count feeds the second `beg_yr` adjustment. -/
def clampYears (begYr numYrs : Int) : Int × Int :=
  (clampBeg begYr (clampNum numYrs), clampNum numYrs)

/-- `[beg_yr+i for i in range(num_yrs)]` (source line 100). -/
def yearRange (begYr numYrs : Int) : List Int :=
  (List.range numYrs.toNat).map (fun i => begYr + (i : Int))

/-! ### Class-code lookup (source line 167) -/

/-- `cmap.loc[cmap.Codes==code]['Current Class Names'].values[0]`: the first
name whose code matches; `none` models the IndexError raised by `[0]` when
the selection is empty. -/
def cmapLookup (cmap : List (Nat × String)) (code : Nat) : Option String :=
  ((cmap.filter (fun r => r.1 == code)).map Prod.snd).head?

/-! ### Top-level script as an effect trace -/

/-- The CDL webservice endpoint (source lines 45 and 111). -/
def base_url : String :=
  "https://nassgeodata.gmu.edu/axis2/services/CDLService/GetCDLFile"

/-- The message printed when the geometry directory or AOI file is missing
(source lines 82-84). -/
def errMsg : String :=
  "Geometry directory or AOI shape file not found."

/-- Observable side effects of the script. -/
inductive Effect where
  | printMsg (s : String)
  | makeDir (d : String)
  | netGet (url : String) (params : List (String × String))
  | removeFile (p : String)
  | writeFile (p : String)
  | writeCsv (p : String) (rows : List (Int × String))
  deriving DecidableEq

/-- The user-defined variables of the script (source lines 25-34). -/
structure Config where
  cleanUp : Bool
  begYr : Int
  numYrs : Int

/-- The external world the script runs against: filesystem state, the AOI
shapefile contents, the class-code map, and the per-year raster the remote
service returns. -/
structure Env where
  geometryDirExists : Bool
  resultsDirExists : Bool
  rasterDirExists : Bool
  aoiFileExists : Bool
  shp : List Feature
  cmap : List (Nat × String)
  fetch : Int → List (Pos × Nat)
  dlUrl : Int → String
  rasterFileExists : Int → Bool
  outFileExists : Bool

/-- `'{0}_{1}_{2}_{3}'.format(*bb)` (source line 121). -/
def bbFileStr (b : BBox) : String :=
  toString b.1 ++ "_" ++ toString b.2.1 ++ "_" ++ toString b.2.2.1 ++ "_" ++
    toString b.2.2.2

/-- `'{0},{1},{2},{3}'.format(*bb)` (source line 105). -/
def bbParam (b : BBox) : String :=
  toString b.1 ++ "," ++ toString b.2.1 ++ "," ++ toString b.2.2.1 ++ "," ++
    toString b.2.2.2

/-- The per-year raster file path (source line 124). -/
def rasterPath (yr : Int) (b : BBox) : String :=
  "raster/cdl_" ++ toString yr ++ "_" ++ bbFileStr b ++ ".tif"

/-- `clip_shp.loc[0].geometry.bounds` (source line 97): only the first
feature contributes to the bounding box. -/
def aoiBBox : List Feature → BBox
  | [] => (0, 0, 0, 0)
  | f :: _ => f.bounds

/-- One iteration of the year loop (source lines 100-170): print, two
network requests, optional stale-file removal, raster write, optional
clean-up removal, then mask, tally and class-name lookup.  A `none` result
models the IndexError that aborts the run when the lookup misses; the
effects before that point have already happened. -/
def processYear (env : Env) (cu : Bool) (bb : BBox) (yr : Int) :
    List Effect × Option (Int × String) :=
  ([Effect.printMsg ("processing data for " ++ toString yr),
    Effect.netGet base_url [("year", toString yr), ("bbox", bbParam bb)],
    Effect.netGet (env.dlUrl yr) []]
    ++ (if env.rasterFileExists yr then [Effect.removeFile (rasterPath yr bb)]
        else [])
    ++ [Effect.writeFile (rasterPath yr bb)]
    ++ (if cu then [Effect.removeFile (rasterPath yr bb)] else []),
   (cmapLookup env.cmap
      (dominantCrop
        (maskedValues (env.shp.map Feature.contains) (env.fetch yr)))).map
     (fun name => (yr, name)))

/-- The year loop: years are processed strictly in order; the first lookup
failure aborts the loop, keeping the effects emitted so far and producing
no row list. -/
def runYears (env : Env) (cu : Bool) (bb : BBox) :
    List Int → List Effect × Option (List (Int × String))
  | [] => ([], some [])
  | yr :: rest =>
      match (processYear env cu bb yr).2, runYears env cu bb rest with
      | none, _ => ((processYear env cu bb yr).1, none)
      | some _, (effs2, none) => ((processYear env cu bb yr).1 ++ effs2, none)
      | some row, (effs2, some rows) =>
          ((processYear env cu bb yr).1 ++ effs2, some (row :: rows))

/-- The clamped `(beg_yr, num_yrs)` pair of a run. -/
def scriptClamp (cfg : Config) : Int × Int :=
  clampYears cfg.begYr cfg.numYrs

/-- The list of years the run processes. -/
def scriptYears (cfg : Config) : List Int :=
  yearRange (scriptClamp cfg).1 (scriptClamp cfg).2

/-- The bounding box of a run, taken from the first AOI feature. -/
def scriptBB (env : Env) : BBox :=
  aoiBBox env.shp

/-- Effects and collected rows of the whole year loop. -/
def scriptRun (cfg : Config) (env : Env) :
    List Effect × Option (List (Int × String)) :=
  runYears env cfg.cleanUp (scriptBB env) (scriptYears cfg)

/-- The results csv path (source line 176), built from the clamped start
year, the last processed year and the bounding box. -/
def resultsOutPath (cfg : Config) (env : Env) : String :=
  "results/rotation_" ++ toString (scriptClamp cfg).1 ++ "_" ++
    toString ((scriptYears cfg).getLastD 0) ++ "_" ++
    bbFileStr (scriptBB env) ++ ".csv"

/-- The directory check loop (source lines 69-76): missing `results` and
`raster` directories are created; a missing `geometry` directory only sets
the error flag. -/
def dirEffects (env : Env) : List Effect :=
  (if env.resultsDirExists then [] else [Effect.makeDir "results"]) ++
    (if env.rasterDirExists then [] else [Effect.makeDir "raster"])

/-- The error flag (source lines 69-79): set when the geometry directory or
the AOI shapefile is missing. -/
def scriptErr (env : Env) : Bool :=
  !env.geometryDirExists || !env.aoiFileExists

/-- The csv-writing tail of the run (source lines 172-183).  When the year
loop aborted (`none`) the exception has already ended the process, so no
csv appears.  When the year list is empty, line 176 reads the loop
variables `yr` and `bb_str` that were never bound, so the script dies with
a NameError before writing; hence the `isEmpty` guard. -/
def csvEffects (cfg : Config) (env : Env) :
    Option (List (Int × String)) → List Effect
  | none => []
  | some rows =>
      if (scriptYears cfg).isEmpty then []
      else
        (if env.outFileExists then
          [Effect.removeFile (resultsOutPath cfg env)] else [])
        ++ [Effect.writeCsv (resultsOutPath cfg env) rows]

/-- Effects of the else-branch (source lines 86-183). -/
def mainEffects (cfg : Config) (env : Env) : List Effect :=
  (scriptRun cfg env).1 ++ csvEffects cfg env (scriptRun cfg env).2

/-- The whole script: directory checks, then either the error message or
the fetch-clip-tally-persist pipeline. -/
def runScript (cfg : Config) (env : Env) : List Effect :=
  dirEffects env ++
    (if scriptErr env then [Effect.printMsg errMsg] else mainEffects cfg env)

/-- Recogniser for network request effects. -/
def isNetGet : Effect → Bool
  | Effect.netGet _ _ => true
  | _ => false

/-- Recogniser for file-creating effects (raster write or results csv). -/
def isFileWrite : Effect → Bool
  | Effect.writeFile _ => true
  | Effect.writeCsv _ _ => true
  | _ => false

/-- Recogniser for the results-csv write effect. -/
def isCsvWrite : Effect → Bool
  | Effect.writeCsv _ _ => true
  | _ => false

/-- `a` occurs in `l` and `b` occurs somewhere after it. -/
def occursBefore {α : Type} (a b : α) (l : List α) : Prop :=
  ∃ l₁ l₂, l = l₁ ++ a :: l₂ ∧ b ∈ l₂

/-- A concrete well-formed environment used by several witnesses. -/
def sampleEnv : Env where
  geometryDirExists := true
  resultsDirExists := true
  rasterDirExists := true
  aoiFileExists := true
  shp := [⟨fun _ => true, (0, 0, 10, 10)⟩]
  cmap := [(7, "Corn")]
  fetch := fun _ => [((0, 0), 7), ((0, 1), 7), ((1, 0), 3)]
  dlUrl := fun _ => "staged"
  rasterFileExists := fun _ => true
  outFileExists := false

/-- `sampleEnv` with the geometry prerequisites missing. -/
def sampleMissingEnv : Env :=
  { sampleEnv with geometryDirExists := false, aoiFileExists := false }

/-- A concrete configuration used by several witnesses. -/
def sampleCfg : Config where
  cleanUp := false
  begYr := 2011
  numYrs := 2

/-! ### Lemmas about the script trace -/

lemma dirEffects_makeDir (env : Env) :
    ∀ e ∈ dirEffects env, ∃ d, e = Effect.makeDir d := by
  intro e he
  unfold dirEffects at he
  by_cases h1 : env.resultsDirExists = true <;>
    by_cases h2 : env.rasterDirExists = true <;>
    simp [h1, h2] at he
  all_goals
    first
    | exact ⟨_, he⟩
    | (rcases he with he | he <;> exact ⟨_, he⟩)

lemma processYear_filter_csv (env : Env) (cu : Bool) (bb : BBox) (yr : Int) :
    (processYear env cu bb yr).1.filter isCsvWrite = [] := by
  unfold processYear
  by_cases h1 : env.rasterFileExists yr = true <;> by_cases h2 : cu = true <;>
    simp [h1, h2, isCsvWrite]

lemma runYears_filter_csv (env : Env) (cu : Bool) (bb : BBox) :
    ∀ ys : List Int, ((runYears env cu bb ys).1).filter isCsvWrite = [] := by
  intro ys
  induction ys with
  | nil => rfl
  | cons yr rest ih =>
      unfold runYears
      cases hpr : (processYear env cu bb yr).2 with
      | none => simp [processYear_filter_csv]
      | some row =>
          rcases hrr : runYears env cu bb rest with ⟨effs2, r2⟩
          rw [hrr] at ih
          cases r2 with
          | none => simp [List.filter_append, processYear_filter_csv, ih]
          | some rows =>
              simp [List.filter_append, processYear_filter_csv, ih]

lemma processYear_row_year (env : Env) (cu : Bool) (bb : BBox) (yr : Int)
    (row : Int × String) (h : (processYear env cu bb yr).2 = some row) :
    row.1 = yr := by
  unfold processYear at h
  cases hcl : cmapLookup env.cmap
      (dominantCrop
        (maskedValues (env.shp.map Feature.contains) (env.fetch yr))) with
  | none => rw [hcl] at h; simp at h
  | some name =>
      rw [hcl] at h
      simp only [Option.map_some] at h
      rw [← Option.some.injEq] at h
      cases h
      rfl

lemma runYears_rows_years (env : Env) (cu : Bool) (bb : BBox) :
    ∀ (ys : List Int) (rows : List (Int × String)),
      (runYears env cu bb ys).2 = some rows → rows.map Prod.fst = ys := by
  intro ys
  induction ys with
  | nil =>
      intro rows h
      unfold runYears at h
      simp only [Option.some.injEq] at h
      rw [← h]
      rfl
  | cons yr rest ih =>
      intro rows h
      unfold runYears at h
      cases hpr : (processYear env cu bb yr).2 with
      | none => rw [hpr] at h; simp at h
      | some row =>
          rcases hrr : runYears env cu bb rest with ⟨effs2, r2⟩
          rw [hpr, hrr] at h
          cases r2 with
          | none => simp at h
          | some rows2 =>
              simp only [Option.some.injEq] at h
              rw [← h, List.map_cons,
                processYear_row_year env cu bb yr row hpr,
                ih rows2 (by rw [hrr])]

/-! ### C3 -/

/-- C3 counterexample: with `beg_yr = 2020`, `num_yrs = 10` the clamping
leaves the request unchanged and the run processes 2029, outside the
supported span; and a request clamped from 2005 to 2009 produces exactly
the same effect trace as a request for 2009, so no clamping report is
ever printed. -/
theorem c3_counterexample :
    (2029 : Int) ∈ yearRange (clampYears 2020 10).1 (clampYears 2020 10).2 ∧
    ¬((2029 : Int) ≤ cdl_end) ∧
    runScript ⟨false, 2005, 1⟩ sampleEnv = runScript ⟨false, 2009, 1⟩ sampleEnv :=
  ⟨by decide, by decide, rfl⟩

/-- C3 (amended): clamping caps the count at the supported span length and
places the start year within `[2009, 2024]` whenever the requested count is
nonnegative; it does not constrain the last processed year, and no report
is printed when clamping occurs. -/
theorem c3_clamp_start_in_bounds (begYr numYrs : Int) (h : 0 ≤ numYrs) :
    cdl_beg ≤ (clampYears begYr numYrs).1 ∧
    (clampYears begYr numYrs).1 ≤ cdl_end ∧
    (clampYears begYr numYrs).2 ≤ cdl_end - cdl_beg := by
  simp only [clampYears, clampBeg, clampNum, cdl_beg, cdl_end] at *
  split_ifs <;> omega

/-- C3 witness: a request starting after the span with too many years is
clamped back into `[2009, 2024]`. -/
theorem c3_witness :
    cdl_beg ≤ (clampYears 2030 20).1 ∧
    (clampYears 2030 20).1 ≤ cdl_end ∧
    (clampYears 2030 20).2 ≤ cdl_end - cdl_beg :=
  c3_clamp_start_in_bounds 2030 20 (by decide)

/-! ### C4 -/

/-- C4: a winning code absent from the class-code table makes the name
lookup fail (the empty `.values[0]` raises) instead of defaulting, and a
masked AOI with no nonzero cell leaves the implicit winning code 0. -/
theorem c4_lookup_miss_error (cmap : List (Nat × String)) (code : Nat)
    (dat : List Nat)
    (habs : ∀ r ∈ cmap, r.1 ≠ code) (hzero : ∀ v ∈ dat, v = 0) :
    cmapLookup cmap code = none ∧ dominantCrop dat = 0 := by
  constructor
  · unfold cmapLookup
    have hf : cmap.filter (fun r => r.1 == code) = [] := by
      rw [List.filter_eq_nil_iff]
      intro r hr
      simp [habs r hr]
    rw [hf]
    rfl
  · have hf : dat.filter (fun v => v != 0) = [] := by
      rw [List.filter_eq_nil_iff]
      intro v hv
      simp [hzero v hv]
    unfold dominantCrop cropTally
    rw [hf]
    rfl

/-- C4 witness: code 0 (the value left by an all-masked AOI) is absent from
a table holding only code 1, and the lookup yields no name. -/
theorem c4_witness :
    cmapLookup [(1, "Corn")] 0 = none ∧ dominantCrop [0, 0] = 0 :=
  c4_lookup_miss_error [(1, "Corn")] 0 [0, 0] (by decide) (by decide)

/-! ### C5 -/

/-- C5: when the geometry directory or the AOI shapefile is missing, the
run prints the descriptive message and stops; its trace contains no
network request and no file write of any kind. -/
theorem c5_missing_aoi_aborts (cfg : Config) (env : Env)
    (h : env.geometryDirExists = false ∨ env.aoiFileExists = false) :
    Effect.printMsg errMsg ∈ runScript cfg env ∧
    ∀ e ∈ runScript cfg env, isNetGet e = false ∧ isFileWrite e = false := by
  have herr : scriptErr env = true := by
    unfold scriptErr
    rcases h with h | h <;> simp [h]
  have hrs : runScript cfg env = dirEffects env ++ [Effect.printMsg errMsg] := by
    unfold runScript
    rw [if_pos herr]
  rw [hrs]
  constructor
  · exact List.mem_append_right _ (List.mem_singleton.mpr rfl)
  · intro e he
    rcases List.mem_append.mp he with h1 | h1
    · obtain ⟨d, rfl⟩ := dirEffects_makeDir env e h1
      exact ⟨rfl, rfl⟩
    · rw [List.mem_singleton] at h1
      subst h1
      exact ⟨rfl, rfl⟩

/-- C5 witness: with the geometry prerequisites missing, the sample run
only reports and performs no network or write effect. -/
theorem c5_witness :
    Effect.printMsg errMsg ∈ runScript sampleCfg sampleMissingEnv ∧
    ∀ e ∈ runScript sampleCfg sampleMissingEnv,
      isNetGet e = false ∧ isFileWrite e = false :=
  c5_missing_aoi_aborts sampleCfg sampleMissingEnv (Or.inl rfl)

/-! ### C6 -/

/-- C6: the results csv is written exactly once, as the very last effect,
with one row per processed year in processing order; a run aborted by a
failed lookup writes no csv at all. -/
theorem c6_single_final_write (cfg : Config) (env : Env)
    (hg : env.geometryDirExists = true) (ha : env.aoiFileExists = true)
    (hne : scriptYears cfg ≠ []) :
    ((scriptRun cfg env).2 = none →
      (runScript cfg env).filter isCsvWrite = []) ∧
    (∀ rows, (scriptRun cfg env).2 = some rows →
      (runScript cfg env).filter isCsvWrite =
        [Effect.writeCsv (resultsOutPath cfg env) rows] ∧
      rows.map Prod.fst = scriptYears cfg ∧
      (runScript cfg env).getLast? =
        some (Effect.writeCsv (resultsOutPath cfg env) rows)) := by
  have herr : scriptErr env = false := by
    unfold scriptErr
    simp [hg, ha]
  have hrs : runScript cfg env = dirEffects env ++ mainEffects cfg env := by
    unfold runScript
    rw [if_neg (by rw [herr]; exact Bool.false_ne_true)]
  have hdir : (dirEffects env).filter isCsvWrite = [] := by
    rw [List.filter_eq_nil_iff]
    intro e he
    obtain ⟨d, rfl⟩ := dirEffects_makeDir env e he
    simp [isCsvWrite]
  have hyears : ((scriptRun cfg env).1).filter isCsvWrite = [] :=
    runYears_filter_csv env cfg.cleanUp (scriptBB env) (scriptYears cfg)
  constructor
  · intro hnone
    rw [hrs, List.filter_append, hdir, List.nil_append]
    unfold mainEffects
    rw [hnone, List.filter_append, hyears, List.nil_append]
    rfl
  · intro rows hsome
    have hEmp : (scriptYears cfg).isEmpty = false := by
      cases hl : scriptYears cfg with
      | nil => exact absurd hl hne
      | cons a t => rfl
    have hcsv : csvEffects cfg env (some rows) =
        (if env.outFileExists then
          [Effect.removeFile (resultsOutPath cfg env)] else [])
        ++ [Effect.writeCsv (resultsOutPath cfg env) rows] := by
      simp only [csvEffects]
      rw [if_neg (show ¬((scriptYears cfg).isEmpty = true) by
        rw [hEmp]; exact Bool.false_ne_true)]
    have hrm : ((if env.outFileExists then
        [Effect.removeFile (resultsOutPath cfg env)] else []) :
          List Effect).filter isCsvWrite = [] := by
      by_cases hb : env.outFileExists = true <;> simp [hb, isCsvWrite]
    refine ⟨?_, ?_, ?_⟩
    · rw [hrs, List.filter_append, hdir, List.nil_append]
      unfold mainEffects
      rw [hsome, List.filter_append, hyears, List.nil_append, hcsv,
        List.filter_append, hrm, List.nil_append]
      rfl
    · exact runYears_rows_years env cfg.cleanUp (scriptBB env)
        (scriptYears cfg) rows hsome
    · rw [hrs]
      unfold mainEffects
      rw [hsome, hcsv, ← List.append_assoc, ← List.append_assoc]
      exact List.getLast?_concat _

/-- C6 witness: a clean 2-year run over the sample environment writes the
csv once, as the last effect, with the two year rows in order. -/
theorem c6_witness :
    (runScript sampleCfg sampleEnv).filter isCsvWrite =
      [Effect.writeCsv (resultsOutPath sampleCfg sampleEnv)
        [(2011, "Corn"), (2012, "Corn")]] ∧
    ([((2011 : Int), "Corn"), (2012, "Corn")].map Prod.fst =
      scriptYears sampleCfg) ∧
    (runScript sampleCfg sampleEnv).getLast? =
      some (Effect.writeCsv (resultsOutPath sampleCfg sampleEnv)
        [(2011, "Corn"), (2012, "Corn")]) :=
  (c6_single_final_write sampleCfg sampleEnv rfl rfl (by decide)).2
    [(2011, "Corn"), (2012, "Corn")] (by decide)

/-! ### C8 -/

/-- C8 counterexample: with a two-feature AOI whose second feature covers
the cells of value 2, both the masked grid and the dominant crop differ
from the single-feature run, so later features are not ignored by the
mask. -/
theorem c8_counterexample :
    maskedValues
        [fun p => p == ((0, 0) : Pos), fun p => decide (p.1 = 1)]
        [((0, 0), 1), ((1, 0), 2), ((1, 1), 2)] ≠
      maskedValues [fun p => p == ((0, 0) : Pos)]
        [((0, 0), 1), ((1, 0), 2), ((1, 1), 2)] ∧
    clipTally
        [fun p => p == ((0, 0) : Pos), fun p => decide (p.1 = 1)]
        [((0, 0), 1), ((1, 0), 2), ((1, 1), 2)] ≠
      clipTally [fun p => p == ((0, 0) : Pos)]
        [((0, 0), 1), ((1, 0), 2), ((1, 1), 2)] :=
  ⟨by decide, by decide⟩

/-- C8 (amended): the bounding box is derived from the first feature only,
but the polygon mask uses every feature of the input: a cell inside any
feature keeps its value through the mask. -/
theorem c8_first_feature_bbox_mask_all (f : Feature) (ext : List Feature)
    (ras : List (Pos × Nat)) (p : Pos) (v : Nat)
    (hin : (p, v) ∈ ras)
    (hc : ((f :: ext).map Feature.contains).any (fun s => s p) = true) :
    aoiBBox (f :: ext) = f.bounds ∧
    (p, v) ∈ maskMask ((f :: ext).map Feature.contains) ras :=
  ⟨rfl, maskedValues_mem_of_inside _ ras p v hin hc⟩

/-- C8 witness: a cell contained only in the second feature survives the
mask while the bounding box is still the first feature's. -/
theorem c8_witness :
    aoiBBox [⟨fun _ => false, (0, 0, 1, 1)⟩, ⟨fun _ => true, (5, 5, 6, 6)⟩] =
      ((0 : Int), (0 : Int), (1 : Int), (1 : Int)) ∧
    (((0, 0) : Pos), 2) ∈
      maskMask
        ([⟨fun _ => false, (0, 0, 1, 1)⟩, ⟨fun _ => true, (5, 5, 6, 6)⟩].map
          Feature.contains)
        [(((0, 0) : Pos), 2)] :=
  c8_first_feature_bbox_mask_all ⟨fun _ => false, (0, 0, 1, 1)⟩
    [⟨fun _ => true, (5, 5, 6, 6)⟩] [(((0, 0) : Pos), 2)] (0, 0) 2
    (by decide) (by decide)

/-! ### C9 -/

/-- C9: every fetched year writes the raster payload to the local path
built from the year and the bounding box, and a pre-existing file at that
path is removed before the write. -/
theorem c9_raster_write_per_year (env : Env) (cu : Bool) (bb : BBox)
    (yr : Int) :
    Effect.writeFile (rasterPath yr bb) ∈ (processYear env cu bb yr).1 ∧
    (env.rasterFileExists yr = true →
      occursBefore (Effect.removeFile (rasterPath yr bb))
        (Effect.writeFile (rasterPath yr bb)) (processYear env cu bb yr).1) := by
  constructor
  · unfold processYear
    simp
  · intro hex
    unfold occursBefore
    refine ⟨[Effect.printMsg ("processing data for " ++ toString yr),
        Effect.netGet base_url [("year", toString yr), ("bbox", bbParam bb)],
        Effect.netGet (env.dlUrl yr) []],
      Effect.writeFile (rasterPath yr bb) ::
        (if cu then [Effect.removeFile (rasterPath yr bb)] else []), ?_, ?_⟩
    · unfold processYear
      rw [if_pos hex]
      simp
    · exact List.mem_cons_self _ _

/-- C9 witness: in the sample environment the pre-existing raster file for
2011 is removed before the fresh payload is written. -/
theorem c9_witness :
    occursBefore (Effect.removeFile (rasterPath 2011 (0, 0, 10, 10)))
      (Effect.writeFile (rasterPath 2011 (0, 0, 10, 10)))
      (processYear sampleEnv false (0, 0, 10, 10) 2011).1 :=
  (c9_raster_write_per_year sampleEnv false (0, 0, 10, 10) 2011).2 rfl

end CdlCropRotation
